import Mathlib

/-!
Shallow embedding of the probe_station repository:
  - src/instruments/probe_station.py (class ProbeStation)
  - src/instrument_drivers/Keithley/Keithley2400.py (class Beeper, route_terminals)
  - src/instrument_drivers/Keithley/Keithley2182A.py (class FilterModule, window)

Modelling choices:
  - Instrument I/O is a trace of events (parameter sets, raw writes, asks,
    sleeps).  The transport is an oracle script: a list of responses consumed
    by successive ask calls; the entry none (or an exhausted script) models a
    CommunicationError raised by the underlying VISA transport at that query.
    Raw writes carry no response, so they are recorded but cannot fail
    synchronously (spec section 6: write expects no response).
  - Python float values are embedded as exact rationals; Python float(s)
    on a decimal string is the exact-rational parser pyFloat below, failing
    (none) exactly where float(s) raises ValueError on plain decimal input.
  - Python exceptions become Except / Option error values: ValueError on
    caller input is invalidArgument, RuntimeError on an illegal mode switch
    is invalidOperation, a failed float(...) or a missing list index when
    splitting a response is parseError, and a transport failure is commError.
-/

namespace ProbeStationRepo

instance {ε α : Type} [DecidableEq ε] [DecidableEq α] : DecidableEq (Except ε α) :=
  fun a b =>
    match a, b with
    | Except.ok x, Except.ok y =>
      if h : x = y then isTrue (by rw [h]) else isFalse (by intro hc; cases hc; exact h rfl)
    | Except.error x, Except.error y =>
      if h : x = y then isTrue (by rw [h]) else isFalse (by intro hc; cases hc; exact h rfl)
    | Except.ok _, Except.error _ => isFalse (by intro hc; cases hc)
    | Except.error _, Except.ok _ => isFalse (by intro hc; cases hc)

/-- The two instruments a ProbeStation talks to. -/
inductive Inst : Type
  | source
  | voltmeter
deriving DecidableEq, Repr

/-- Values passed to qcodes parameter calls in the source. -/
inductive ParamVal : Type
  | num (q : ℚ)
  | str (s : String)
  | bool (b : Bool)
deriving DecidableEq, Repr

/-- One observable instrument interaction. -/
inductive Event : Type
  | write (i : Inst) (cmd : String)
  | ask (i : Inst) (cmd : String)
  | setParam (i : Inst) (name : String) (v : ParamVal)
  | sleep (seconds : ℚ)
deriving DecidableEq, Repr

/-- Errors surfaced to the caller (spec section 7 taxonomy, plus the
parameter-validation failure of section 4.1): ValueError on caller input is
invalidArgument, RuntimeError on an illegal mode switch is invalidOperation,
a validator rejection inside Parameter.set is invalidValue. -/
inductive PSError : Type
  | commError
  | parseError (raw : String)
  | invalidArgument
  | invalidOperation
  | invalidValue
deriving DecidableEq, Repr

/-- Transport oracle: responses consumed by successive ask calls;
none means the transport raises a communication error at that query. -/
abbrev Script := List (Option String)

/-- Whitespace characters stripped by Python float parsing. -/
def isPySpace (c : Char) : Bool :=
  c = ' ' ∨ c = '\t' ∨ c = '\n' ∨ c = '\r' ∨ c = '\x0b' ∨ c = '\x0c'

/-- Strip leading and trailing whitespace from a character list. -/
def pyStrip (cs : List Char) : List Char :=
  ((cs.dropWhile isPySpace).reverse.dropWhile isPySpace).reverse

/-- Python str.split(sep) for a single-character separator: the groups between
occurrences of the separator, in order (empty groups included). -/
def splitOnChar (sep : Char) : List Char → List (List Char)
  | [] => [[]]
  | c :: cs =>
    if c = sep then [] :: splitOnChar sep cs
    else
      match splitOnChar sep cs with
      | [] => [[c]]
      | g :: gs => (c :: g) :: gs

/-- Consume an optional leading sign; true means negative. -/
def signChars : List Char → Bool × List Char
  | '+' :: r => (false, r)
  | '-' :: r => (true, r)
  | r => (false, r)

/-- Collect consecutive leading decimal digits. -/
def takeDigits : List Char → List ℕ × List Char
  | [] => ([], [])
  | c :: cs =>
    if c.isDigit then ((c.toNat - 48) :: (takeDigits cs).1, (takeDigits cs).2)
    else ([], c :: cs)

/-- Consume a fractional part: a decimal point followed by digits. -/
def fracDigits : List Char → List ℕ × List Char
  | '.' :: r => takeDigits r
  | r => ([], r)

/-- Value of a digit list read most-significant first. -/
def digitsVal (ds : List ℕ) : ℕ := ds.foldl (fun a d => 10 * a + d) 0

/-- The syntactic parts of a well-formed decimal float literal: mantissa
sign, integer-part digits, fraction digits, exponent sign, exponent digits
(empty when no exponent is written). -/
structure FloatTok : Type where
  neg : Bool
  ip : List ℕ
  fp : List ℕ
  eneg : Bool
  ed : List ℕ
deriving DecidableEq, Repr

/-- Scan an optional exponent after the mantissa: end of input, or an e/E
marker with an optionally signed nonempty digit run ending the input. -/
def scanExp (t : FloatTok) : List Char → Option FloatTok
  | [] => some t
  | e :: r =>
    if e = 'e' ∨ e = 'E' then
      let eneg := (signChars r).1
      let r1 := (signChars r).2
      let ed := (takeDigits r1).1
      let r2 := (takeDigits r1).2
      if ed.isEmpty ∨ ¬ r2.isEmpty then none
      else some { t with eneg := eneg, ed := ed }
    else none

/-- Scan a decimal float literal: optional surrounding whitespace, optional
sign, digits with at most one decimal point (at least one digit in the
mantissa), optional e/E exponent.  Returns none where Python float(s)
raises ValueError on plain decimal input. -/
def scanFloat (raw : List Char) : Option FloatTok :=
  let cs := pyStrip raw
  let neg := (signChars cs).1
  let cs1 := (signChars cs).2
  let ip := (takeDigits cs1).1
  let cs2 := (takeDigits cs1).2
  let fp := (fracDigits cs2).1
  let cs3 := (fracDigits cs2).2
  if ip.isEmpty ∧ fp.isEmpty then none
  else scanExp ⟨neg, ip, fp, false, []⟩ cs3

/-- The rational value denoted by a scanned float literal. -/
def tokVal (t : FloatTok) : ℚ :=
  (if t.neg then -1 else 1) *
    ((digitsVal t.ip : ℚ) + (digitsVal t.fp : ℚ) / (10 ^ t.fp.length)) *
    (10 : ℚ) ^ ((if t.eneg then -1 else 1) * (digitsVal t.ed : ℤ))

/-- Exact-rational embedding of Python float(s) on plain decimal input. -/
def pyFloatChars (raw : List Char) : Option ℚ := (scanFloat raw).map tokVal

/-- Python float(s) on a string. -/
def pyFloat (s : String) : Option ℚ := pyFloatChars s.toList

/-- The response split resp.split(sep=",") followed by float(resp[0]) and
float(resp[1]) in the
source: needs at least two comma-separated fields (else IndexError) and both
must parse as floats (else ValueError); extra fields are ignored.  Returns
the (voltage, current) pair. -/
def parsePair (resp : String) : Except PSError (ℚ × ℚ) :=
  match splitOnChar ',' resp.toList with
  | a :: b :: _ =>
    match pyFloatChars a, pyFloatChars b with
    | some x, some y => Except.ok (x, y)
    | _, _ => Except.error (PSError.parseError resp)
  | _ => Except.error (PSError.parseError resp)

/-- One ask call: record the event, consume the next script entry.
An exhausted script or a none entry is a transport communication error. -/
def doAsk (i : Inst) (cmd : String) (sc : Script) :
    List Event × Script × Except PSError String :=
  match sc with
  | [] => ([Event.ask i cmd], [], Except.error PSError.commError)
  | none :: rest => ([Event.ask i cmd], rest, Except.error PSError.commError)
  | some r :: rest => ([Event.ask i cmd], rest, Except.ok r)

/-- ProbeStation state: the voltmeter reference (present or absent), the
mode flag and the fixed settling delay, as held by the Python instance. -/
structure ProbeStation : Type where
  hasVoltmeter : Bool
  mode : String
  delay : ℚ
deriving DecidableEq, Repr

/-- ProbeStation.__init__ state: mode is auto-selected from voltmeter
presence and the settling delay is fixed at 0.01 s. -/
def ProbeStation.make (hasVoltmeter : Bool) : ProbeStation :=
  { hasVoltmeter := hasVoltmeter
    mode := if hasVoltmeter then "4wire" else "2wire"
    delay := 1 / 100 }

/-- The instrument interactions issued by ProbeStation.__init__, in program
order: self.nplc(1) (source nplcv, and voltmeter nplc when present), then
terminals, the raw resistance-mode write, mode, rangev, volt, output. -/
def initEvents (hasVoltmeter : Bool) : List Event :=
  [Event.setParam Inst.source "nplcv" (ParamVal.num 1)]
    ++ (if hasVoltmeter then [Event.setParam Inst.voltmeter "nplc" (ParamVal.num 1)] else [])
    ++ [Event.setParam Inst.source "terminals" (ParamVal.str "rear"),
        Event.write Inst.source ":SENSe:RESistance:MODE MAN",
        Event.setParam Inst.source "mode" (ParamVal.str "VOLT"),
        Event.setParam Inst.source "rangev" (ParamVal.num (210 / 1000)),
        Event.setParam Inst.source "volt" (ParamVal.num (3 / 100)),
        Event.setParam Inst.source "output" (ParamVal.bool true)]

/-- Whether an event is an interaction with the source-meter. -/
def Event.onSource : Event → Bool
  | Event.write Inst.source _ => true
  | Event.ask Inst.source _ => true
  | Event.setParam Inst.source _ _ => true
  | _ => false

/-- The source-meter interactions of a trace, in order. -/
def sourceEvents (es : List Event) : List Event := es.filter Event.onSource

/-- ProbeStation.set_mode: returns the state after the call, the instrument
interactions performed (the body performs none) and the error raised, if
any.  Both raises happen before the assignment to self.mode, so on error the
state is returned unchanged. -/
def set_mode (ps : ProbeStation) (mode : String) :
    ProbeStation × List Event × Option PSError :=
  if mode ≠ "2wire" ∧ mode ≠ "4wire" then
    (ps, [], some PSError.invalidArgument)
  else if mode = "4wire" ∧ ¬ ps.hasVoltmeter then
    (ps, [], some PSError.invalidOperation)
  else
    ({ ps with mode := mode }, [], none)

/-- States reachable from construction by any sequence of set_mode calls
(the only operation of the class that assigns the mode flag). -/
inductive Reachable : ProbeStation → Prop
  | construct (hv : Bool) : Reachable (ProbeStation.make hv)
  | step (ps : ProbeStation) (m : String) :
      Reachable ps → Reachable (set_mode ps m).1

/-- ProbeStation._measure_cv_2_wire: write INIT to the source-meter, ask it
FETC?, parse the comma-separated voltage,current response. -/
def measure_cv_2_wire (sc : Script) :
    List Event × Script × Except PSError (ℚ × ℚ) :=
  let a := doAsk Inst.source "FETC?" sc
  match a.2.2 with
  | Except.error e => (Event.write Inst.source "INIT" :: a.1, a.2.1, Except.error e)
  | Except.ok resp => (Event.write Inst.source "INIT" :: a.1, a.2.1, parsePair resp)

/-- ProbeStation._measure_cv_4_wire: write INIT to the source-meter, sleep
the settling delay, write INIT to the voltmeter, ask the voltmeter FETC? and
parse a single float, then ask the source-meter FETC? and parse the
voltage,current pair.  Returns (voltage_voltmeter, current, voltage_source).
A failure at the voltmeter query aborts before the source-meter query. -/
def measure_cv_4_wire (delay : ℚ) (sc : Script) :
    List Event × Script × Except PSError (ℚ × ℚ × ℚ) :=
  let pre := [Event.write Inst.source "INIT", Event.sleep delay,
              Event.write Inst.voltmeter "INIT"]
  let a := doAsk Inst.voltmeter "FETC?" sc
  match a.2.2 with
  | Except.error e => (pre ++ a.1, a.2.1, Except.error e)
  | Except.ok vstr =>
    match pyFloat vstr with
    | none => (pre ++ a.1, a.2.1, Except.error (PSError.parseError vstr))
    | some vVoltm =>
      let b := doAsk Inst.source "FETC?" a.2.1
      match b.2.2 with
      | Except.error e => (pre ++ a.1 ++ b.1, b.2.1, Except.error e)
      | Except.ok resp =>
        match parsePair resp with
        | Except.error e => (pre ++ a.1 ++ b.1, b.2.1, Except.error e)
        | Except.ok p => (pre ++ a.1 ++ b.1, b.2.1, Except.ok (vVoltm, p.2, p.1))

/-- The sweep loop of ProbeStation.measure_cvc: for each setpoint, set the
source voltage parameter, then measure per the mode flag, accumulating
meas_v, meas_i and (4-wire branch only) meas_v_source.  The first raised
error aborts the loop and propagates. -/
def measure_cvc_loop (ps : ProbeStation) (sc : Script) (setpoints : List ℚ) :
    List Event × Script × Except PSError (List ℚ × List ℚ × List ℚ) :=
  match setpoints with
  | [] => ([], sc, Except.ok ([], [], []))
  | v :: vs =>
    let e0 := Event.setParam Inst.source "volt" (ParamVal.num v)
    if ps.mode = "4wire" then
      let m := measure_cv_4_wire ps.delay sc
      match m.2.2 with
      | Except.error e => (e0 :: m.1, m.2.1, Except.error e)
      | Except.ok t =>
        let rest := measure_cvc_loop ps m.2.1 vs
        (e0 :: m.1 ++ rest.1, rest.2.1,
          rest.2.2.map fun acc => (t.1 :: acc.1, t.2.1 :: acc.2.1, t.2.2 :: acc.2.2))
    else
      let m := measure_cv_2_wire sc
      match m.2.2 with
      | Except.error e => (e0 :: m.1, m.2.1, Except.error e)
      | Except.ok t =>
        let rest := measure_cvc_loop ps m.2.1 vs
        (e0 :: m.1 ++ rest.1, rest.2.1,
          rest.2.2.map fun acc => (t.1 :: acc.1, t.2 :: acc.2.1, acc.2.2))

/-- ProbeStation.measure_cvc: run the sweep loop, then return
(meas_v, meas_i, meas_v_source) in 4-wire mode and (meas_v, meas_i, None)
otherwise. -/
def measure_cvc (ps : ProbeStation) (sc : Script) (setpoints : List ℚ) :
    List Event × Script × Except PSError (List ℚ × List ℚ × Option (List ℚ)) :=
  let run := measure_cvc_loop ps sc setpoints
  (run.1, run.2.1,
    run.2.2.map fun acc =>
      if ps.mode = "4wire" then (acc.1, acc.2.1, some acc.2.2)
      else (acc.1, acc.2.1, none))

/-- The setpoints written to the source voltage parameter in a trace. -/
def voltSets (es : List Event) : List ℚ :=
  es.filterMap fun e =>
    match e with
    | Event.setParam Inst.source "volt" (ParamVal.num q) => some q
    | _ => none

/-- Python str(v) on the exact rationals that embed floats here. -/
def pyStr (q : ℚ) : String := toString q

/-- The single SCPI command Beeper.beep writes, embedding both values
(the f-string :SYSTem:BEEPer {freq},{duration} in Keithley2400.py). -/
def beeperCmd (freq duration : ℚ) : String :=
  ":SYSTem:BEEPer " ++ pyStr freq ++ "," ++ pyStr duration

/-- Beeper.beep (Keithley2400.py): both arguments default to None; an
omitted argument raises ValueError, then a frequency outside [65, 2e6] or a
duration outside [0, 7.9] raises ValueError; otherwise the single command
embedding both values is written.  Returns the commands written. -/
def beep (freq duration : Option ℚ) : Except PSError (List String) :=
  if freq = none ∨ duration = none then Except.error PSError.invalidArgument
  else
    match freq, duration with
    | some f, some d =>
      if ¬ (65 ≤ f ∧ f ≤ 2000000) then Except.error PSError.invalidArgument
      else if ¬ (0 ≤ d ∧ d ≤ 79 / 10) then Except.error PSError.invalidArgument
      else Except.ok [beeperCmd f d]
    | _, _ => Except.error PSError.invalidArgument

/-- Beeper.success: self.beep(800, 1). -/
def success : Except PSError (List String) := beep (some 800) (some 1)

/-- qcodes Parameter.set as the spec section 4.1 describes it: when the
declaration carries a validator, a value failing it raises InvalidValue and
nothing is written; otherwise the set parser and command formatting are
applied and the single resulting command is written.  Returns the commands
written. -/
def paramSet {α : Type} (vals : Option (α → Bool)) (mkCmd : α → String) (v : α) :
    Except PSError (List String) :=
  match vals with
  | some ok => if ok v then Except.ok [mkCmd v] else Except.error PSError.invalidValue
  | none => Except.ok [mkCmd v]

/-- The set parser of the FilterModule window parameter (Keithley2182A.py):
None maps to NONE, any other value to str(value). -/
def windowSetMap (v : Option ℚ) : String :=
  match v with
  | none => "NONE"
  | some q => pyStr q

/-- The command written by a window parameter set: the set command template
SENS:VOLT:DFIL:WINDOW with the parsed value substituted. -/
def windowSetCmd (v : Option ℚ) : String :=
  "SENS:VOLT:DFIL:WINDOW " ++ windowSetMap v

/-- The validator of the window parameter declaration: the add_parameter
call in FilterModule.__init__ passes no vals= argument, so no validator is
declared (unlike the count parameter, which declares Numbers(1, 100)). -/
def windowVals : Option (Option ℚ → Bool) := none

/-- Setting the voltmeter filter window parameter. -/
def window_set (v : Option ℚ) : Except PSError (List String) :=
  paramSet windowVals windowSetCmd v

end ProbeStationRepo
namespace ProbeStationRepo

theorem measure_cvc_loop_length (ps : ProbeStation) (sps : List ℚ) :
    ∀ (sc : Script) (a b c : List ℚ),
      (measure_cvc_loop ps sc sps).2.2 = Except.ok (a, b, c) →
      a.length = sps.length ∧ b.length = sps.length ∧
        (ps.mode = "4wire" → c.length = sps.length) ∧
        (ps.mode ≠ "4wire" → c = []) := by
  induction sps with
  | nil =>
    intro sc a b c h
    simp only [measure_cvc_loop, Except.ok.injEq, Prod.mk.injEq] at h
    obtain ⟨ha, hb, hc⟩ := h
    subst ha hb hc
    simp
  | cons v vs ih =>
    intro sc a b c h
    by_cases hm : ps.mode = "4wire"
    · cases hr : (measure_cv_4_wire ps.delay sc).2.2 with
      | error e => simp [measure_cvc_loop, hm, hr] at h
      | ok t =>
        simp only [measure_cvc_loop, hm, if_true, hr] at h
        cases hrest : (measure_cvc_loop ps (measure_cv_4_wire ps.delay sc).2.1 vs).2.2 with
        | error e2 => simp [hrest, Except.map] at h
        | ok acc =>
          simp only [hrest, Except.map, Except.ok.injEq, Prod.mk.injEq] at h
          obtain ⟨ha, hb, hc⟩ := h
          obtain ⟨l1, l2, l3, _⟩ := ih (measure_cv_4_wire ps.delay sc).2.1 acc.1 acc.2.1 acc.2.2 (by simpa using hrest)
          subst ha hb hc
          simp [l1, l2, l3 hm, hm]
    · cases hr : (measure_cv_2_wire sc).2.2 with
      | error e => simp [measure_cvc_loop, hm, hr] at h
      | ok t =>
        simp only [measure_cvc_loop, hm, if_false, hr] at h
        cases hrest : (measure_cvc_loop ps (measure_cv_2_wire sc).2.1 vs).2.2 with
        | error e2 => simp [hrest, Except.map] at h
        | ok acc =>
          simp only [hrest, Except.map, Except.ok.injEq, Prod.mk.injEq] at h
          obtain ⟨ha, hb, hc⟩ := h
          obtain ⟨l1, l2, _, l4⟩ := ih (measure_cv_2_wire sc).2.1 acc.1 acc.2.1 acc.2.2 (by simpa using hrest)
          subst ha hb hc
          simp [l1, l2, l4 hm, hm]


/-- Claim C1: for every setpoint sequence of length N, when the sweep
raises no error, measure_cvc returns measured-voltage and measured-current
sequences each of length exactly N; in 2-wire mode the third component is
none for every N, and the empty sweep returns two empty sequences and none;
in 4-wire mode the third component is a sequence of length exactly N. -/
theorem measure_cvc_length_spec (ps : ProbeStation) (sc : Script) (setpoints : List ℚ)
    (mv mi : List ℚ) (mo : Option (List ℚ))
    (h : (measure_cvc ps sc setpoints).2.2 = Except.ok (mv, mi, mo)) :
    mv.length = setpoints.length ∧ mi.length = setpoints.length ∧
      (ps.mode = "2wire" → mo = none) ∧
      (ps.mode = "4wire" → ∃ ms, mo = some ms ∧ ms.length = setpoints.length) ∧
      (ps.mode = "2wire" → (measure_cvc ps sc []).2.2 = Except.ok ([], [], none)) := by
  cases hr : (measure_cvc_loop ps sc setpoints).2.2 with
  | error e => simp [measure_cvc, hr, Except.map] at h
  | ok acc =>
    obtain ⟨l1, l2, l3, l4⟩ :=
      measure_cvc_loop_length ps setpoints sc acc.1 acc.2.1 acc.2.2 (by simpa using hr)
    by_cases hm : ps.mode = "4wire"
    · simp only [measure_cvc, hr, Except.map, hm, if_true, Except.ok.injEq, Prod.mk.injEq] at h
      obtain ⟨ha, hb, hc⟩ := h
      subst ha hb hc
      refine ⟨l1, l2, ?_, ?_, ?_⟩
      · intro h2; rw [h2] at hm; exact absurd hm (by decide)
      · exact fun _ => ⟨acc.2.2, rfl, l3 hm⟩
      · intro h2; rw [h2] at hm; exact absurd hm (by decide)
    · simp only [measure_cvc, hr, Except.map, hm, if_false, Except.ok.injEq, Prod.mk.injEq] at h
      obtain ⟨ha, hb, hc⟩ := h
      subst ha hb hc
      refine ⟨l1, l2, fun _ => rfl, fun h4 => absurd h4 hm, fun _ => ?_⟩
      simp [measure_cvc, measure_cvc_loop, Except.map, hm]

/-- Witness for measure_cvc_length_spec at a concrete 2-wire sweep. -/
theorem measure_cvc_length_spec_witness :
    (measure_cvc (ProbeStation.make false) [some "2,3"] [5]).2.2 =
        Except.ok ([2], [3], none) ∧
      ([2] : List ℚ).length = ([5] : List ℚ).length ∧
      ([3] : List ℚ).length = ([5] : List ℚ).length :=
  have hp : (measure_cvc (ProbeStation.make false) [some "2,3"] [5]).2.2 =
      Except.ok ([2], [3], none) := by
    have h : parsePair "2,3" = Except.ok (2, 3) := by
      have h1 : splitOnChar ',' "2,3".toList = ["2".toList, "3".toList] := by decide
      have h2 : scanFloat "2".toList = some ⟨false, [2], [], false, []⟩ := by decide
      have h3 : scanFloat "3".toList = some ⟨false, [3], [], false, []⟩ := by decide
      simp only [parsePair, h1, pyFloatChars, h2, h3, Option.map_some]
      norm_num [tokVal, digitsVal, List.foldl]
    simp [measure_cvc, measure_cvc_loop, measure_cv_2_wire, doAsk, h,
      ProbeStation.make, Except.map]
  ⟨hp, (measure_cvc_length_spec (ProbeStation.make false) [some "2,3"] [5] [2] [3] none hp).1,
    (measure_cvc_length_spec (ProbeStation.make false) [some "2,3"] [5] [2] [3] none hp).2.1⟩

/-- Claim C2: in 2-wire mode each sweep point writes the setpoint to the
source voltage parameter, sends INIT to the source-meter, queries it with
FETC? and parses the comma-separated voltage,current response into two
floats; concretely, when the source-meter answers 0.0301,0.000142 to FETC?,
the single-setpoint sweep at 0.03 returns ([0.0301], [0.000142], none). -/
theorem measure_cvc_2wire_point_spec (ps : ProbeStation) (h2 : ps.mode = "2wire")
    (v : ℚ) (r : String) (rest : Script) :
    (measure_cvc ps (some r :: rest) [v]).1 =
      [Event.setParam Inst.source "volt" (ParamVal.num v),
       Event.write Inst.source "INIT", Event.ask Inst.source "FETC?"] ∧
    (measure_cvc ps (some r :: rest) [v]).2.2 =
      (parsePair r).map (fun p => ([p.1], [p.2], (none : Option (List ℚ)))) ∧
    measure_cvc (ProbeStation.make false) [some "0.0301,0.000142"] [3/100] =
      ([Event.setParam Inst.source "volt" (ParamVal.num (3/100)),
        Event.write Inst.source "INIT", Event.ask Inst.source "FETC?"], [],
       Except.ok ([301/10000], [142/1000000], none)) := by
  have hm : ps.mode ≠ "4wire" := by rw [h2]; decide
  refine ⟨?_, ?_, ?_⟩
  · cases hp : parsePair r with
    | error e => simp [measure_cvc, measure_cvc_loop, measure_cv_2_wire, doAsk, hm, hp]
    | ok p => simp [measure_cvc, measure_cvc_loop, measure_cv_2_wire, doAsk, hm, hp, Except.map]
  · cases hp : parsePair r with
    | error e => simp [measure_cvc, measure_cvc_loop, measure_cv_2_wire, doAsk, hm, hp, Except.map]
    | ok p => simp [measure_cvc, measure_cvc_loop, measure_cv_2_wire, doAsk, hm, hp, Except.map]
  · have h : parsePair "0.0301,0.000142" = Except.ok (301/10000, 142/1000000) := by
      have h1 : splitOnChar ',' "0.0301,0.000142".toList =
          ["0.0301".toList, "0.000142".toList] := by decide
      have h2 : scanFloat "0.0301".toList = some ⟨false, [0], [0,3,0,1], false, []⟩ := by decide
      have h3 : scanFloat "0.000142".toList =
          some ⟨false, [0], [0,0,0,1,4,2], false, []⟩ := by decide
      simp only [parsePair, h1, pyFloatChars, h2, h3, Option.map_some]
      norm_num [tokVal, digitsVal, List.foldl]
    simp [measure_cvc, measure_cvc_loop, measure_cv_2_wire, doAsk, h,
      ProbeStation.make, Except.map]

/-- Witness for measure_cvc_2wire_point_spec: the trace of a concrete
single-point 2-wire sweep. -/
theorem measure_cvc_2wire_point_spec_witness :
    (measure_cvc (ProbeStation.make false) [some "2,3"] [5]).1 =
      [Event.setParam Inst.source "volt" (ParamVal.num 5),
       Event.write Inst.source "INIT", Event.ask Inst.source "FETC?"] :=
  (measure_cvc_2wire_point_spec (ProbeStation.make false) rfl 5 "2,3" []).1

/-- Claim C3: set_mode fails with InvalidArgument (the ValueError branch)
for every tag outside 2wire and 4wire; set_mode to 4wire fails with
InvalidOperation (the RuntimeError branch) without a voltmeter; with a
voltmeter it succeeds and is idempotent. -/
theorem set_mode_spec (ps : ProbeStation) (m : String) :
    (m ≠ "2wire" ∧ m ≠ "4wire" → set_mode ps m = (ps, [], some PSError.invalidArgument)) ∧
      (¬ ps.hasVoltmeter → set_mode ps "4wire" = (ps, [], some PSError.invalidOperation)) ∧
      (ps.hasVoltmeter →
        set_mode ps "4wire" = ({ ps with mode := "4wire" }, [], none) ∧
          set_mode (set_mode ps "4wire").1 "4wire" = ((set_mode ps "4wire").1, [], none)) := by
  refine ⟨fun hm => by simp [set_mode, hm.1, hm.2], fun hv => by simp [set_mode, hv],
    fun hv => ⟨by simp [set_mode, hv], by simp [set_mode, hv]⟩⟩

/-- Witness for set_mode_spec at concrete stations and tags. -/
theorem set_mode_spec_witness :
    set_mode (ProbeStation.make false) "bogus" =
        (ProbeStation.make false, [], some PSError.invalidArgument) ∧
      set_mode (ProbeStation.make false) "4wire" =
        (ProbeStation.make false, [], some PSError.invalidOperation) ∧
      set_mode (ProbeStation.make true) "4wire" =
        ({ ProbeStation.make true with mode := "4wire" }, [], none) :=
  ⟨(set_mode_spec (ProbeStation.make false) "bogus").1 ⟨by decide, by decide⟩,
    (set_mode_spec (ProbeStation.make false) "4wire").2.1 (by decide),
    ((set_mode_spec (ProbeStation.make true) "4wire").2.2 (by decide)).1⟩

theorem set_mode_hasVoltmeter (ps : ProbeStation) (m : String) :
    (set_mode ps m).1.hasVoltmeter = ps.hasVoltmeter := by
  unfold set_mode
  split
  · rfl
  · split
    · rfl
    · rfl

/-- Claim C4: every reachable ProbeStation state has mode 2wire or 4wire,
mode 4wire implies a voltmeter reference is present, the invariant is
established at construction (mode is 4wire exactly when a voltmeter was
supplied) and preserved by set_mode, the only operation assigning the
flag. -/
theorem mode_invariant (ps : ProbeStation) (h : Reachable ps) :
    (ps.mode = "2wire" ∨ ps.mode = "4wire") ∧
      (ps.mode = "4wire" → ps.hasVoltmeter) ∧
      (∀ hv : Bool, (ProbeStation.make hv).mode = if hv then "4wire" else "2wire") := by
  have key : (ps.mode = "2wire" ∨ ps.mode = "4wire") ∧
      (ps.mode = "4wire" → ps.hasVoltmeter) := by
    induction h with
    | construct hv => cases hv <;> simp [ProbeStation.make]
    | step ps' m hr ih =>
      by_cases h1 : m ≠ "2wire" ∧ m ≠ "4wire"
      · simpa [set_mode, h1.1, h1.2] using ih
      · have hm : m = "2wire" ∨ m = "4wire" := by tauto
        cases hb : ps'.hasVoltmeter with
        | false =>
          rcases hm with hm | hm <;> subst hm
          · simp [set_mode, hb]
          · simpa [set_mode, hb] using ih
        | true =>
          rcases hm with hm | hm <;> subst hm
          · simp [set_mode, hb]
          · simp [set_mode, hb]
  exact ⟨key.1, key.2, fun hv => by cases hv <;> rfl⟩

/-- Witness for mode_invariant at the constructed 4-wire station. -/
theorem mode_invariant_witness :
    ((ProbeStation.make true).mode = "2wire" ∨ (ProbeStation.make true).mode = "4wire") :=
  (mode_invariant (ProbeStation.make true) (Reachable.construct true)).1

/-- Claim C5: beep fails with InvalidArgument exactly when an argument is
omitted, the frequency is outside [65, 2e6] Hz or the duration is outside
[0, 7.9] s (in particular at 64.9 Hz, 2000001 Hz, -0.1 s and 7.91 s);
otherwise exactly the one command embedding both values is written and no
other write occurs; success behaves exactly as beep(800, 1). -/
theorem beep_spec (fo dur : Option ℚ) :
    (beep fo dur = Except.error PSError.invalidArgument ↔
        fo = none ∨ dur = none ∨
          ∃ f d, fo = some f ∧ dur = some d ∧
            (f < 65 ∨ 2000000 < f ∨ d < 0 ∨ 79 / 10 < d)) ∧
      (∀ f d : ℚ, 65 ≤ f → f ≤ 2000000 → 0 ≤ d → d ≤ 79 / 10 →
        beep (some f) (some d) = Except.ok [beeperCmd f d]) ∧
      beep (some (649 / 10)) (some 1) = Except.error PSError.invalidArgument ∧
      beep (some 2000001) (some 1) = Except.error PSError.invalidArgument ∧
      beep (some 800) (some (-1 / 10)) = Except.error PSError.invalidArgument ∧
      beep (some 800) (some (791 / 100)) = Except.error PSError.invalidArgument ∧
      beep fo none = Except.error PSError.invalidArgument ∧
      beep none dur = Except.error PSError.invalidArgument ∧
      success = beep (some 800) (some 1) ∧
      beep (some 800) (some 1) = Except.ok [beeperCmd 800 1] := by
  refine ⟨?_, ?_, by norm_num [beep], by norm_num [beep], by norm_num [beep],
    by norm_num [beep], by simp [beep], by simp [beep], rfl, ?_⟩
  · cases fo with
    | none => simp [beep]
    | some f =>
      cases dur with
      | none => simp [beep]
      | some d =>
        have hlhs : beep (some f) (some d) = Except.error PSError.invalidArgument ↔
            ¬(65 ≤ f ∧ f ≤ 2000000) ∨ ¬(0 ≤ d ∧ d ≤ 79 / 10) := by
          by_cases hf : 65 ≤ f ∧ f ≤ 2000000
          · by_cases hd : 0 ≤ d ∧ d ≤ 79 / 10
            · simp [beep, hf, hd]
            · simp [beep, hf, hd]
          · simp [beep, hf]
        rw [hlhs]
        constructor
        · intro he
          refine Or.inr (Or.inr ⟨f, d, rfl, rfl, ?_⟩)
          rcases he with h | h
          · rcases not_and_or.mp h with h | h
            · exact Or.inl (not_le.mp h)
            · exact Or.inr (Or.inl (not_le.mp h))
          · rcases not_and_or.mp h with h | h
            · exact Or.inr (Or.inr (Or.inl (not_le.mp h)))
            · exact Or.inr (Or.inr (Or.inr (not_le.mp h)))
        · rintro (h | h | ⟨f1, d1, hf1, hd1, hbad⟩)
          · exact absurd h (by simp)
          · exact absurd h (by simp)
          · obtain rfl := Option.some.inj hf1
            obtain rfl := Option.some.inj hd1
            rcases hbad with h | h | h | h
            · exact Or.inl fun hc => absurd hc.1 (not_le.mpr h)
            · exact Or.inl fun hc => absurd hc.2 (not_le.mpr h)
            · exact Or.inr fun hc => absurd hc.1 (not_le.mpr h)
            · exact Or.inr fun hc => absurd hc.2 (not_le.mpr h)
  · intro f d hf1 hf2 hd1 hd2
    simp [beep, hf1, hf2, hd1, hd2]
  · have hn : ¬(some (800 : ℚ) = none ∨ some (1 : ℚ) = none) := by
      rintro (h | h) <;> exact Option.noConfusion h
    simp only [beep, if_neg hn]
    norm_num

/-- Witness for beep_spec at the valid call beep(800, 1). -/
theorem beep_spec_witness :
    beep (some (800 : ℚ)) (some 1) = Except.ok [beeperCmd 800 1] :=
  (beep_spec (some 800) (some 1)).2.1 800 1 (by norm_num) (by norm_num)
    (by norm_num) (by norm_num)

/-- Claim C6 evaluated on the code: the window parameter declaration in
FilterModule passes no vals validator (its docstring and the spec state
bounds 0.01 to 10), so setting any numeric value, the out-of-bounds 11
included, raises nothing and writes the formatted command; the claimed
InvalidValue rejection before the write does not happen. -/
theorem window_set_no_validation :
    window_set (some 11) = Except.ok [windowSetCmd (some 11)] ∧
      (∀ v : Option ℚ, window_set v = Except.ok [windowSetCmd v]) ∧
      window_set (some 11) ≠ Except.error PSError.invalidValue :=
  ⟨rfl, fun _ => rfl, fun h => Except.noConfusion h⟩

/-- Claim C7 counterexample: the commands issued on the source-meter at
construction are not exactly the six the claim lists (rear terminals,
manual resistance-sense mode, source function, range, voltage, output):
the constructor calls self.nplc(1) first, which writes the source NPLC
parameter, so seven source-meter commands are issued. -/
theorem init_sequence_counterexample :
    sourceEvents (initEvents false) ≠
      [Event.setParam Inst.source "terminals" (ParamVal.str "rear"),
       Event.write Inst.source ":SENSe:RESistance:MODE MAN",
       Event.setParam Inst.source "mode" (ParamVal.str "VOLT"),
       Event.setParam Inst.source "rangev" (ParamVal.num (210 / 1000)),
       Event.setParam Inst.source "volt" (ParamVal.num (3 / 100)),
       Event.setParam Inst.source "output" (ParamVal.bool true)] := by
  intro h
  have h7 : (sourceEvents (initEvents false)).length = 7 := rfl
  rw [h] at h7
  simp at h7

/-- Claim C7 amended: construction issues on the source-meter exactly, in
order: set the NPLC integration time to 1, select rear terminals, force
manual resistance-sense mode, set the source function to voltage, set the
voltage range to 210 mV, set the source voltage to 30 mV, and enable the
output. -/
theorem init_sequence_amended :
    ∀ hv : Bool, sourceEvents (initEvents hv) =
      [Event.setParam Inst.source "nplcv" (ParamVal.num 1),
       Event.setParam Inst.source "terminals" (ParamVal.str "rear"),
       Event.write Inst.source ":SENSe:RESistance:MODE MAN",
       Event.setParam Inst.source "mode" (ParamVal.str "VOLT"),
       Event.setParam Inst.source "rangev" (ParamVal.num (210 / 1000)),
       Event.setParam Inst.source "volt" (ParamVal.num (3 / 100)),
       Event.setParam Inst.source "output" (ParamVal.bool true)] := by
  intro hv
  cases hv <;> rfl

/-- Claim C8: a 4-wire measurement cycle performs, in this order: source
INIT write, the fixed 10 ms settling sleep, voltmeter INIT write, voltmeter
FETC? query, source FETC? query; its result triple is (voltmeter voltage,
current, source-meter voltage). -/
theorem measure_4wire_cycle_spec (r1 r2 : String) (rest : Script) (v i vs : ℚ)
    (h1 : pyFloat r1 = some v) (h2 : parsePair r2 = Except.ok (vs, i)) :
    measure_cv_4_wire (ProbeStation.make true).delay (some r1 :: some r2 :: rest) =
      ([Event.write Inst.source "INIT", Event.sleep (1 / 100),
        Event.write Inst.voltmeter "INIT", Event.ask Inst.voltmeter "FETC?",
        Event.ask Inst.source "FETC?"], rest, Except.ok (v, i, vs)) := by
  simp [measure_cv_4_wire, doAsk, h1, h2, ProbeStation.make]

/-- Witness for measure_4wire_cycle_spec at concrete responses. -/
theorem measure_4wire_cycle_spec_witness :
    measure_cv_4_wire (ProbeStation.make true).delay [some "2", some "3,4"] =
      ([Event.write Inst.source "INIT", Event.sleep (1 / 100),
        Event.write Inst.voltmeter "INIT", Event.ask Inst.voltmeter "FETC?",
        Event.ask Inst.source "FETC?"], [], Except.ok (2, 4, 3)) :=
  measure_4wire_cycle_spec "2" "3,4" [] 2 4 3
    (by
      have h : scanFloat "2".toList = some ⟨false, [2], [], false, []⟩ := by decide
      simp only [pyFloat, pyFloatChars, h, Option.map_some]
      norm_num [tokVal, digitsVal, List.foldl])
    (by
      have ha : splitOnChar ',' "3,4".toList = ["3".toList, "4".toList] := by decide
      have hb : scanFloat "3".toList = some ⟨false, [3], [], false, []⟩ := by decide
      have hc : scanFloat "4".toList = some ⟨false, [4], [], false, []⟩ := by decide
      simp only [parsePair, ha, pyFloatChars, hb, hc, Option.map_some]
      norm_num [tokVal, digitsVal, List.foldl])

theorem voltSets_append (a b : List Event) :
    voltSets (a ++ b) = voltSets a ++ voltSets b :=
  List.filterMap_append a b _

theorem voltSets_measure_cv_2_wire (sc : Script) :
    voltSets (measure_cv_2_wire sc).1 = [] := by
  rcases sc with _ | ⟨r, rest⟩
  · rfl
  · rcases r with _ | s
    · rfl
    · cases hp : parsePair s with
      | error e => simp [measure_cv_2_wire, doAsk, hp, voltSets]
      | ok p => simp [measure_cv_2_wire, doAsk, hp, voltSets]

theorem voltSets_measure_cv_4_wire (d : ℚ) (sc : Script) :
    voltSets (measure_cv_4_wire d sc).1 = [] := by
  rcases sc with _ | ⟨r, rest⟩
  · rfl
  · rcases r with _ | s
    · rfl
    · cases hp : pyFloat s with
      | none => simp [measure_cv_4_wire, doAsk, hp, voltSets]
      | some v =>
        rcases rest with _ | ⟨r2, rest2⟩
        · simp [measure_cv_4_wire, doAsk, hp, voltSets]
        · rcases r2 with _ | s2
          · simp [measure_cv_4_wire, doAsk, hp, voltSets]
          · cases hpp : parsePair s2 with
            | error e => simp [measure_cv_4_wire, doAsk, hp, hpp, voltSets]
            | ok p => simp [measure_cv_4_wire, doAsk, hp, hpp, voltSets]

theorem voltSets_cons_volt (v : ℚ) (es : List Event) :
    voltSets (Event.setParam Inst.source "volt" (ParamVal.num v) :: es) =
      v :: voltSets es := rfl

theorem measure_cvc_loop_abort (ps : ProbeStation) (sps : List ℚ) :
    ∀ (sc : Script) (e : PSError),
      (measure_cvc_loop ps sc sps).2.2 = Except.error e →
      ∃ k, k < sps.length ∧
        measure_cvc_loop ps sc sps = measure_cvc_loop ps sc (List.take (k+1) sps) ∧
        voltSets (measure_cvc_loop ps sc sps).1 = List.take (k+1) sps := by
  induction sps with
  | nil => intro sc e h; simp [measure_cvc_loop] at h
  | cons v vs ih =>
    intro sc e h
    by_cases hm : ps.mode = "4wire"
    · cases hr : (measure_cv_4_wire ps.delay sc).2.2 with
      | error e2 =>
        refine ⟨0, by simp, by simp [measure_cvc_loop, hm, hr], ?_⟩
        simp [measure_cvc_loop, hm, hr, voltSets_cons_volt, voltSets_measure_cv_4_wire]
      | ok t =>
        have h2 : (measure_cvc_loop ps (measure_cv_4_wire ps.delay sc).2.1 vs).2.2 =
            Except.error e := by
          cases hrest : (measure_cvc_loop ps (measure_cv_4_wire ps.delay sc).2.1 vs).2.2 with
          | error e2 =>
            simp only [measure_cvc_loop, hm, if_true, hr, hrest, Except.map,
              Except.error.injEq] at h
            rw [h]
          | ok acc =>
            simp [measure_cvc_loop, hm, hr, hrest, Except.map] at h
        obtain ⟨k, hk, heq, hvs⟩ := ih (measure_cv_4_wire ps.delay sc).2.1 e h2
        refine ⟨k + 1, by simpa using Nat.succ_lt_succ hk, ?_, ?_⟩
        · simp [measure_cvc_loop, hm, hr, ← heq]
        · simp only [measure_cvc_loop, hm, if_true, hr, List.take_succ_cons]
          simp [voltSets_cons_volt, voltSets_append, voltSets_measure_cv_4_wire, hvs]
    · cases hr : (measure_cv_2_wire sc).2.2 with
      | error e2 =>
        refine ⟨0, by simp, by simp [measure_cvc_loop, hm, hr], ?_⟩
        simp [measure_cvc_loop, hm, hr, voltSets_cons_volt, voltSets_measure_cv_2_wire]
      | ok t =>
        have h2 : (measure_cvc_loop ps (measure_cv_2_wire sc).2.1 vs).2.2 =
            Except.error e := by
          cases hrest : (measure_cvc_loop ps (measure_cv_2_wire sc).2.1 vs).2.2 with
          | error e2 =>
            simp only [measure_cvc_loop, hm, if_false, hr, hrest, Except.map,
              Except.error.injEq] at h
            rw [h]
          | ok acc =>
            simp [measure_cvc_loop, hm, hr, hrest, Except.map] at h
        obtain ⟨k, hk, heq, hvs⟩ := ih (measure_cv_2_wire sc).2.1 e h2
        refine ⟨k + 1, by simpa using Nat.succ_lt_succ hk, ?_, ?_⟩
        · simp [measure_cvc_loop, hm, hr, ← heq]
        · simp only [measure_cvc_loop, hm, if_false, hr, List.take_succ_cons]
          simp [voltSets_cons_volt, voltSets_append, voltSets_measure_cv_2_wire, hvs]

/-- Claim C9: when any sweep point fails (malformed response or
communication error), measure_cvc aborts immediately: the whole run equals
the run on just the setpoint prefix up to and including the failing point,
the error propagates unchanged, no later setpoint is written (the volt
parameter receives exactly the prefix), and the error result carries no
partial sequences. -/
theorem measure_cvc_abort_spec (ps : ProbeStation) (sc : Script) (sps : List ℚ)
    (e : PSError) (h : (measure_cvc ps sc sps).2.2 = Except.error e) :
    ∃ k, k < sps.length ∧
      measure_cvc ps sc sps = measure_cvc ps sc (List.take (k+1) sps) ∧
      (measure_cvc ps sc (List.take (k+1) sps)).2.2 = Except.error e ∧
      voltSets (measure_cvc ps sc sps).1 = List.take (k+1) sps := by
  have hl : (measure_cvc_loop ps sc sps).2.2 = Except.error e := by
    cases hr : (measure_cvc_loop ps sc sps).2.2 with
    | error e2 =>
      simp only [measure_cvc, hr, Except.map, Except.error.injEq] at h
      rw [h]
    | ok acc => simp [measure_cvc, hr, Except.map] at h
  obtain ⟨k, hk, heq, hvs⟩ := measure_cvc_loop_abort ps sps sc e hl
  refine ⟨k, hk, ?_, ?_, ?_⟩
  · simp only [measure_cvc, heq]
  · simp only [measure_cvc, ← heq, hl, Except.map]
  · simpa [measure_cvc] using hvs

/-- Witness for measure_cvc_abort_spec: a 2-point sweep whose first
response is malformed. -/
theorem measure_cvc_abort_spec_witness :
    ∃ k, k < ([1, 2] : List ℚ).length ∧
      measure_cvc (ProbeStation.make false) [some "bad"] [1, 2] =
        measure_cvc (ProbeStation.make false) [some "bad"] (List.take (k+1) [1, 2]) ∧
      (measure_cvc (ProbeStation.make false) [some "bad"] (List.take (k+1) [1, 2])).2.2 =
        Except.error (PSError.parseError "bad") ∧
      voltSets (measure_cvc (ProbeStation.make false) [some "bad"] [1, 2]).1 =
        List.take (k+1) [1, 2] :=
  measure_cvc_abort_spec (ProbeStation.make false) [some "bad"] [1, 2]
    (PSError.parseError "bad") (by decide)

/-- Claim C10: set_mode is atomic and communication-free: it performs no
instrument interaction in any case, and whenever it raises, the returned
state (the mode flag included) is exactly the state before the call. -/
theorem set_mode_pure_spec (ps : ProbeStation) (m : String) :
    (set_mode ps m).2.1 = [] ∧
      ((set_mode ps m).2.2.isSome → (set_mode ps m).1 = ps) := by
  unfold set_mode
  constructor
  · split
    · rfl
    · split
      · rfl
      · rfl
  · split
    · intro _; rfl
    · split
      · intro _; rfl
      · intro hc; simp at hc

/-- Witness for set_mode_pure_spec at a rejected tag. -/
theorem set_mode_pure_spec_witness :
    (set_mode (ProbeStation.make false) "bogus").2.1 = [] ∧
      (set_mode (ProbeStation.make false) "bogus").1 = ProbeStation.make false :=
  ⟨(set_mode_pure_spec (ProbeStation.make false) "bogus").1,
    (set_mode_pure_spec (ProbeStation.make false) "bogus").2 (by decide)⟩
end ProbeStationRepo
